import Mathlib

/-!
A shallow embedding of the CareLens medical-document extraction pipeline
(`backend/app/services/extraction_service.py`, `backend/app/extract/lab_mapper.py`,
`backend/app/extract/unit_converter.py`) together with theorems settling the
spec claims about it.

Modelling conventions:
* Python floats are modelled as exact rationals (`ℚ`); `round(x, n)` is
  modelled as round-half-to-even at `n` decimal places.
* Python strings are Lean `String`s; `str.lower()` is `strLower`
  (the strings manipulated by the claims are ASCII), `str.strip()` is
  `strTrim`, and the `in` substring test is `strContains`.
* The Python `re` module is an external library, not repository code.  Every
  place the pipeline calls into it (`re.finditer` over the lab patterns,
  `re.search` for unit detection) is modelled by an explicit regex-engine
  parameter `ReEngine`, and the pipeline theorems quantify over all engines -
  a sound over-approximation of all documents.  The two anchored numeric
  regexes, whose exact semantics the table path depends on, are implemented
  directly (`isNumericCell`, `extractNumericValue`).
-/

namespace CareLens

/-- Does the character list `needle` occur contiguously inside `hay`?
This is Python's substring test `needle in hay` on the underlying text. -/
def startsWithChars : List Char → List Char → Bool
  | _, [] => true
  | [], _ :: _ => false
  | b :: bs, a :: as => a = b && startsWithChars bs as

/-- Substring occurrence test on character lists (Python `in`). -/
def containsChars : List Char → List Char → Bool
  | [], needle => needle.isEmpty
  | h :: t, needle => startsWithChars (h :: t) needle || containsChars t needle

/-- Python's substring test `pat in s`. -/
def strContains (s pat : String) : Bool := containsChars s.data pat.data

/-- Python `str.lower()` (ASCII case folding), written over the character
list so that it evaluates by kernel reduction. -/
def strLower (s : String) : String := String.mk (s.data.map Char.toLower)

/-- Python `str.strip()`: drop leading and trailing whitespace. -/
def strTrim (s : String) : String :=
  String.mk (((s.data.dropWhile Char.isWhitespace).reverse.dropWhile
    Char.isWhitespace).reverse)

/-- Numeric value of a list of decimal digit characters. -/
def digitsVal (ds : List Char) : ℕ := ds.foldl (fun a c => a * 10 + (c.toNat - 48)) 0

/-- Python `float(s)` restricted to the plain decimal forms `\d+` and
`\d+.\d+` that the lab-value regex group `(\d+(?:\.\d+)?)` and the table
cell cleaner can produce; any other string fails (Python would raise
`ValueError`, which the callers catch). -/
def parseFloat (s : String) : Option ℚ :=
  let (intPart, rest) := s.data.span Char.isDigit
  if intPart.isEmpty then none
  else
    match rest with
    | [] => some (digitsVal intPart)
    | '.' :: frac =>
        if !frac.isEmpty && frac.all Char.isDigit then
          some ((digitsVal intPart : ℚ) + (digitsVal frac : ℚ) / 10 ^ frac.length)
        else none
    | _ => none

/-- First match of the regex `\d+(?:\.\d+)?` inside a string of digits and
dots (the cleaned cell produced by `_extract_numeric_value`), as a rational. -/
def firstNumericChars (cs : List Char) : Option ℚ :=
  match cs.dropWhile (fun c => !c.isDigit) with
  | [] => none
  | ds =>
    let (ip, rest) := ds.span Char.isDigit
    match rest with
    | '.' :: more =>
        let fp := more.takeWhile Char.isDigit
        if fp.isEmpty then some (digitsVal ip)
        else some ((digitsVal ip : ℚ) + (digitsVal fp : ℚ) / 10 ^ fp.length)
    | _ => some (digitsVal ip)

/-- `LabMapper._extract_numeric_value`: strip every character that is not a
digit or a dot, then take the first `\d+(?:\.\d+)?` match. -/
def extractNumericValue (value_str : String) : Option ℚ :=
  firstNumericChars (value_str.data.filter (fun c => c.isDigit || c = '.'))

/-- Does a cell match the anchored regex `^\d+(?:\.\d+)?$`
(from `_analyze_data_patterns`)? -/
def isNumericCell (s : String) : Bool :=
  let (ip, rest) := s.data.span Char.isDigit
  !ip.isEmpty &&
    (match rest with
     | [] => true
     | '.' :: frac => !frac.isEmpty && frac.all Char.isDigit
     | _ => false)

/-- Round-half-to-even to an integer, the rounding Python's builtin
`round` uses. -/
def roundHalfEven (q : ℚ) : ℤ :=
  let f := ⌊q⌋
  let r := q - f
  if r < 1/2 then f
  else if 1/2 < r then f + 1
  else if f % 2 = 0 then f else f + 1

/-- Python `round(q, n)`: round-half-to-even at `n` decimal places. -/
def pyRound (q : ℚ) (n : ℕ) : ℚ := (roundHalfEven (q * 10 ^ n) : ℚ) / 10 ^ n

/-- The regex pattern strings of `LabMapper._load_lab_patterns`, keyed by
canonical test name, in dictionary (insertion) order. -/
def labPatterns : List (String × List String) :=
  [ ("glucose_fasting",
      ["fasting\\s+glucose[:\\s]*(\\d+(?:\\.\\d+)?)",
       "glucose[,\\s]*fasting[:\\s]*(\\d+(?:\\.\\d+)?)",
       "FBG[:\\s]*(\\d+(?:\\.\\d+)?)",
       "fasting\\s+blood\\s+glucose[:\\s]*(\\d+(?:\\.\\d+)?)"]),
    ("glucose_random",
      ["random\\s+glucose[:\\s]*(\\d+(?:\\.\\d+)?)",
       "glucose[,\\s]*random[:\\s]*(\\d+(?:\\.\\d+)?)",
       "RBG[:\\s]*(\\d+(?:\\.\\d+)?)"]),
    ("hba1c",
      ["hba1c[:\\s]*(\\d+(?:\\.\\d+)?)",
       "hemoglobin\\s+a1c[:\\s]*(\\d+(?:\\.\\d+)?)",
       "glycated\\s+hemoglobin[:\\s]*(\\d+(?:\\.\\d+)?)",
       "a1c[:\\s]*(\\d+(?:\\.\\d+)?)"]),
    ("cholesterol_total",
      ["total\\s+cholesterol[:\\s]*(\\d+(?:\\.\\d+)?)",
       "cholesterol[,\\s]*total[:\\s]*(\\d+(?:\\.\\d+)?)",
       "TC[:\\s]*(\\d+(?:\\.\\d+)?)",
       "serum\\s+cholesterol[:\\s]*(\\d+(?:\\.\\d+)?)"]),
    ("cholesterol_hdl",
      ["hdl[:\\s]*(\\d+(?:\\.\\d+)?)",
       "hdl\\s+cholesterol[:\\s]*(\\d+(?:\\.\\d+)?)",
       "high\\s+density\\s+lipoprotein[:\\s]*(\\d+(?:\\.\\d+)?)"]),
    ("cholesterol_ldl",
      ["ldl[:\\s]*(\\d+(?:\\.\\d+)?)",
       "ldl\\s+cholesterol[:\\s]*(\\d+(?:\\.\\d+)?)",
       "low\\s+density\\s+lipoprotein[:\\s]*(\\d+(?:\\.\\d+)?)"]),
    ("triglycerides",
      ["triglycerides[:\\s]*(\\d+(?:\\.\\d+)?)",
       "tg[:\\s]*(\\d+(?:\\.\\d+)?)",
       "trigs[:\\s]*(\\d+(?:\\.\\d+)?)"]),
    ("creatinine",
      ["creatinine[:\\s]*(\\d+(?:\\.\\d+)?)",
       "serum\\s+creatinine[:\\s]*(\\d+(?:\\.\\d+)?)",
       "cr[:\\s]*(\\d+(?:\\.\\d+)?)"]),
    ("bun",
      ["bun[:\\s]*(\\d+(?:\\.\\d+)?)",
       "blood\\s+urea\\s+nitrogen[:\\s]*(\\d+(?:\\.\\d+)?)",
       "urea[:\\s]*(\\d+(?:\\.\\d+)?)"]),
    ("hemoglobin",
      ["hemoglobin[:\\s]*(\\d+(?:\\.\\d+)?)",
       "hgb[:\\s]*(\\d+(?:\\.\\d+)?)",
       "hb[:\\s]*(\\d+(?:\\.\\d+)?)"]),
    ("hematocrit",
      ["hematocrit[:\\s]*(\\d+(?:\\.\\d+)?)",
       "hct[:\\s]*(\\d+(?:\\.\\d+)?)",
       "packed\\s+cell\\s+volume[:\\s]*(\\d+(?:\\.\\d+)?)"]),
    ("white_blood_cells",
      ["wbc[:\\s]*(\\d+(?:\\.\\d+)?)",
       "white\\s+blood\\s+cells[:\\s]*(\\d+(?:\\.\\d+)?)",
       "leukocytes[:\\s]*(\\d+(?:\\.\\d+)?)"]),
    ("platelets",
      ["platelets[:\\s]*(\\d+(?:\\.\\d+)?)",
       "plt[:\\s]*(\\d+(?:\\.\\d+)?)",
       "thrombocytes[:\\s]*(\\d+(?:\\.\\d+)?)"]),
    ("tsh",
      ["tsh[:\\s]*(\\d+(?:\\.\\d+)?)",
       "thyroid\\s+stimulating\\s+hormone[:\\s]*(\\d+(?:\\.\\d+)?)",
       "thyrotropin[:\\s]*(\\d+(?:\\.\\d+)?)"]),
    ("t3",
      ["t3[:\\s]*(\\d+(?:\\.\\d+)?)",
       "triiodothyronine[:\\s]*(\\d+(?:\\.\\d+)?)",
       "free\\s+t3[:\\s]*(\\d+(?:\\.\\d+)?)"]),
    ("t4",
      ["t4[:\\s]*(\\d+(?:\\.\\d+)?)",
       "thyroxine[:\\s]*(\\d+(?:\\.\\d+)?)",
       "free\\s+t4[:\\s]*(\\d+(?:\\.\\d+)?)"]),
    ("alt",
      ["alt[:\\s]*(\\d+(?:\\.\\d+)?)",
       "alanine\\s+aminotransferase[:\\s]*(\\d+(?:\\.\\d+)?)",
       "alat[:\\s]*(\\d+(?:\\.\\d+)?)"]),
    ("ast",
      ["ast[:\\s]*(\\d+(?:\\.\\d+)?)",
       "aspartate\\s+aminotransferase[:\\s]*(\\d+(?:\\.\\d+)?)",
       "asat[:\\s]*(\\d+(?:\\.\\d+)?)"]),
    ("bilirubin_total",
      ["total\\s+bilirubin[:\\s]*(\\d+(?:\\.\\d+)?)",
       "bilirubin[,\\s]*total[:\\s]*(\\d+(?:\\.\\d+)?)",
       "tbil[:\\s]*(\\d+(?:\\.\\d+)?)"]),
    ("albumin",
      ["albumin[:\\s]*(\\d+(?:\\.\\d+)?)",
       "serum\\s+albumin[:\\s]*(\\d+(?:\\.\\d+)?)",
       "alb[:\\s]*(\\d+(?:\\.\\d+)?)"]) ]

/-- One entry of `LabMapper._load_reference_ranges`.  The fields mirror the
Python dictionary keys (`min`, `max`, `unit`, `critical_high`,
`critical_low`); absent keys are `none`. -/
structure RefRange where
  min : Option ℚ
  max : Option ℚ
  unit : String
  critical_high : Option ℚ
  critical_low : Option ℚ
deriving DecidableEq

/-- `LabMapper._load_reference_ranges`, in dictionary order. -/
def referenceRanges : List (String × RefRange) :=
  [ ("glucose_fasting", ⟨some 70, some 100, "mg/dL", some 126, none⟩),
    ("glucose_random", ⟨some 70, some 140, "mg/dL", some 200, none⟩),
    ("hba1c", ⟨some 4.0, some 5.6, "%", some 7.0, none⟩),
    ("cholesterol_total", ⟨some 0, some 200, "mg/dL", some 240, none⟩),
    ("cholesterol_hdl", ⟨some 40, some 100, "mg/dL", none, some 40⟩),
    ("cholesterol_ldl", ⟨some 0, some 130, "mg/dL", some 160, none⟩),
    ("triglycerides", ⟨some 0, some 150, "mg/dL", some 200, none⟩),
    ("creatinine", ⟨some 0.6, some 1.2, "mg/dL", some 2.0, none⟩),
    ("bun", ⟨some 7, some 20, "mg/dL", some 50, none⟩),
    ("hemoglobin", ⟨some 12.0, some 16.0, "g/dL", none, some 8.0⟩),
    ("hematocrit", ⟨some 36, some 48, "%", none, some 24⟩),
    ("white_blood_cells", ⟨some 4.0, some 11.0, "K/μL", some 20.0, none⟩),
    ("platelets", ⟨some 150, some 450, "K/μL", none, some 50⟩),
    ("tsh", ⟨some 0.4, some 4.0, "mIU/L", some 10.0, none⟩),
    ("t3", ⟨some 80, some 200, "ng/dL", some 300, none⟩),
    ("t4", ⟨some 5.0, some 12.0, "μg/dL", some 20.0, none⟩),
    ("alt", ⟨some 7, some 40, "U/L", some 120, none⟩),
    ("ast", ⟨some 8, some 40, "U/L", some 120, none⟩),
    ("bilirubin_total", ⟨some 0.2, some 1.2, "mg/dL", some 3.0, none⟩),
    ("albumin", ⟨some 3.5, some 5.0, "g/dL", none, some 2.5⟩) ]

/-- `LabMapper._load_unit_patterns`: regex/alias strings used to detect a
unit of measurement, keyed by the normalized unit spelling. -/
def unitPatterns : List (String × List String) :=
  [ ("mg/dL", ["mg/dl", "mg\\s*/\\s*dl", "milligrams per deciliter"]),
    ("g/dL", ["g/dl", "g\\s*/\\s*dl", "grams per deciliter"]),
    ("μg/dL", ["μg/dl", "ug/dl", "mcg/dl", "micrograms per deciliter"]),
    ("ng/dL", ["ng/dl", "nanograms per deciliter"]),
    ("mIU/L", ["miu/l", "milli international units per liter"]),
    ("U/L", ["u/l", "units per liter", "iu/l"]),
    ("K/μL", ["k/μl", "k/ul", "thousands per microliter"]),
    ("%", ["percent", "percentage"]),
    ("mmol/L", ["mmol/l", "millimoles per liter"]),
    ("cells/μL", ["cells/μl", "cells/ul", "cells per microliter"]) ]

/-- The direct alias dictionary of `LabMapper._normalize_test_name`. -/
def nameMappings : List (String × String) :=
  [ ("fbs", "glucose_fasting"),
    ("fasting blood sugar", "glucose_fasting"),
    ("fasting glucose", "glucose_fasting"),
    ("rbs", "glucose_random"),
    ("random blood sugar", "glucose_random"),
    ("hemoglobin a1c", "hba1c"),
    ("glycated hemoglobin", "hba1c"),
    ("total cholesterol", "cholesterol_total"),
    ("hdl cholesterol", "cholesterol_hdl"),
    ("ldl cholesterol", "cholesterol_ldl"),
    ("serum creatinine", "creatinine"),
    ("blood urea nitrogen", "bun"),
    ("hemoglobin", "hemoglobin"),
    ("hematocrit", "hematocrit"),
    ("white blood cells", "white_blood_cells"),
    ("platelets", "platelets"),
    ("thyroid stimulating hormone", "tsh"),
    ("triiodothyronine", "t3"),
    ("thyroxine", "t4"),
    ("alanine aminotransferase", "alt"),
    ("aspartate aminotransferase", "ast"),
    ("total bilirubin", "bilirubin_total"),
    ("albumin", "albumin") ]

/-- `UnitConverter._load_standard_units`. -/
def standardUnits : List (String × String) :=
  [ ("glucose_fasting", "mg/dL"),
    ("glucose_random", "mg/dL"),
    ("hba1c", "%"),
    ("cholesterol_total", "mg/dL"),
    ("cholesterol_hdl", "mg/dL"),
    ("cholesterol_ldl", "mg/dL"),
    ("triglycerides", "mg/dL"),
    ("creatinine", "mg/dL"),
    ("bun", "mg/dL"),
    ("hemoglobin", "g/dL"),
    ("hematocrit", "%"),
    ("white_blood_cells", "K/μL"),
    ("platelets", "K/μL"),
    ("tsh", "mIU/L"),
    ("t3", "ng/dL"),
    ("t4", "μg/dL"),
    ("alt", "U/L"),
    ("ast", "U/L"),
    ("bilirubin_total", "mg/dL"),
    ("albumin", "g/dL") ]

/-- `UnitConverter._load_conversion_factors`: category → source unit →
target unit → multiplicative factor. -/
def conversionFactors : List (String × List (String × List (String × ℚ))) :=
  [ ("glucose",
      [ ("mg/dL", [("mmol/L", 0.0555), ("mg/dL", 1.0)]),
        ("mmol/L", [("mg/dL", 18.018), ("mmol/L", 1.0)]) ]),
    ("cholesterol",
      [ ("mg/dL", [("mmol/L", 0.0259), ("mg/dL", 1.0)]),
        ("mmol/L", [("mg/dL", 38.67), ("mmol/L", 1.0)]) ]),
    ("triglycerides",
      [ ("mg/dL", [("mmol/L", 0.0113), ("mg/dL", 1.0)]),
        ("mmol/L", [("mg/dL", 88.5), ("mmol/L", 1.0)]) ]),
    ("creatinine",
      [ ("mg/dL", [("μmol/L", 88.4), ("mg/dL", 1.0), ("umol/L", 88.4)]),
        ("μmol/L", [("mg/dL", 0.0113), ("μmol/L", 1.0)]),
        ("umol/L", [("mg/dL", 0.0113), ("umol/L", 1.0), ("μmol/L", 1.0)]) ]),
    ("urea",
      [ ("mg/dL", [("mmol/L", 0.357), ("mg/dL", 1.0)]),
        ("mmol/L", [("mg/dL", 2.8), ("mmol/L", 1.0)]) ]),
    ("bilirubin",
      [ ("mg/dL", [("μmol/L", 17.1), ("mg/dL", 1.0), ("umol/L", 17.1)]),
        ("μmol/L", [("mg/dL", 0.0585), ("μmol/L", 1.0)]),
        ("umol/L", [("mg/dL", 0.0585), ("umol/L", 1.0), ("μmol/L", 1.0)]) ]),
    ("protein",
      [ ("g/dL", [("g/L", 10.0), ("g/dL", 1.0)]),
        ("g/L", [("g/dL", 0.1), ("g/L", 1.0)]) ]),
    ("hemoglobin",
      [ ("g/dL", [("g/L", 10.0), ("mmol/L", 0.6206), ("g/dL", 1.0)]),
        ("g/L", [("g/dL", 0.1), ("g/L", 1.0), ("mmol/L", 0.06206)]),
        ("mmol/L", [("g/dL", 1.611), ("g/L", 16.11), ("mmol/L", 1.0)]) ]),
    ("thyroid",
      [ ("ng/dL", [("nmol/L", 0.01281), ("ng/dL", 1.0), ("ng/ml", 0.01)]),
        ("nmol/L", [("ng/dL", 78.1), ("nmol/L", 1.0)]),
        ("ng/ml", [("ng/dL", 100.0), ("ng/ml", 1.0)]),
        ("μg/dL", [("pmol/L", 12.87), ("μg/dL", 1.0), ("ug/dL", 1.0)]),
        ("ug/dL", [("μg/dL", 1.0), ("ug/dL", 1.0)]),
        ("pmol/L", [("μg/dL", 0.0777), ("pmol/L", 1.0)]) ]),
    ("vitamin_d",
      [ ("ng/mL", [("nmol/L", 2.5), ("ng/mL", 1.0)]),
        ("nmol/L", [("ng/mL", 0.4), ("nmol/L", 1.0)]) ]),
    ("b12",
      [ ("pg/mL", [("pmol/L", 0.738), ("pg/mL", 1.0)]),
        ("pmol/L", [("pg/mL", 1.355), ("pmol/L", 1.0)]) ]) ]

/-- The unit-spelling normalization table of `UnitConverter._normalize_unit`. -/
def unitMappings : List (String × String) :=
  [ ("mg/dl", "mg/dL"), ("mgdl", "mg/dL"), ("mg%", "mg/dL"),
    ("g/dl", "g/dL"), ("gdl", "g/dL"), ("g%", "g/dL"),
    ("ug/dl", "μg/dL"), ("ugdl", "μg/dL"), ("mcg/dl", "μg/dL"),
    ("ng/dl", "ng/dL"), ("ngdl", "ng/dL"),
    ("mmol/l", "mmol/L"), ("mmoll", "mmol/L"),
    ("umol/l", "μmol/L"), ("umoll", "μmol/L"), ("μmol/l", "μmol/L"),
    ("nmol/l", "nmol/L"), ("nmoll", "nmol/L"),
    ("pmol/l", "pmol/L"), ("pmoll", "pmol/L"),
    ("miu/l", "mIU/L"), ("miul", "mIU/L"),
    ("u/l", "U/L"), ("ul", "U/L"), ("iu/l", "U/L"), ("iul", "U/L"),
    ("k/ul", "K/μL"), ("k/μl", "K/μL"),
    ("thousand/ul", "K/μL"), ("thousand/μl", "K/μL"),
    ("percent", "%"), ("percentage", "%"),
    ("ng/ml", "ng/mL"), ("ngml", "ng/mL"),
    ("pg/ml", "pg/mL"), ("pgml", "pg/mL") ]

/-- The category table of `UnitConverter._get_conversion_category`. -/
def categoryMappings : List (String × List String) :=
  [ ("glucose", ["glucose_fasting", "glucose_random"]),
    ("cholesterol", ["cholesterol_total", "cholesterol_hdl", "cholesterol_ldl"]),
    ("triglycerides", ["triglycerides"]),
    ("creatinine", ["creatinine"]),
    ("urea", ["bun"]),
    ("bilirubin", ["bilirubin_total", "bilirubin_direct"]),
    ("protein", ["albumin", "total_protein"]),
    ("hemoglobin", ["hemoglobin"]),
    ("thyroid", ["tsh", "t3", "t4", "free_t3", "free_t4"]) ]

/-- The decimal-precision table of `UnitConverter._round_to_precision`. -/
def precisionMap : List (String × ℕ) :=
  [ ("glucose_fasting", 0), ("glucose_random", 0), ("hba1c", 1),
    ("cholesterol_total", 0), ("cholesterol_hdl", 0), ("cholesterol_ldl", 0),
    ("triglycerides", 0), ("creatinine", 2), ("bun", 0),
    ("hemoglobin", 1), ("hematocrit", 1), ("tsh", 3), ("t3", 0), ("t4", 1),
    ("alt", 0), ("ast", 0), ("bilirubin_total", 1), ("albumin", 1) ]

/-- One recognized lab reading, as the pipeline's dictionaries carry it.
Only the fields some claim inspects are modelled; the purely informational
strings (`reference_range`, `pattern_used`, `context`, `position`,
`source`, `original_*`) are omitted. -/
structure LabValue where
  test_name : String
  value : ℚ
  unit : String
  confidence : ℚ
  is_abnormal : Option Bool
deriving DecidableEq

/-- `LabMapper.is_value_abnormal`: compare the raw numeric value against the
catalog range for the test; `none` when the test has no catalog entry.  The
`unit` argument is accepted, as in the source, but never read. -/
def is_value_abnormal (test_name : String) (value : ℚ) (unit : String) : Option Bool :=
  match referenceRanges.lookup test_name with
  | none => none
  | some r =>
      let lowBad : Bool := match r.min with | some m => decide (value < m) | none => false
      let highBad : Bool := match r.max with | some m => decide (m < value) | none => false
      some (lowBad || highBad)

/-- `LabMapper.get_default_unit` (also `_detect_unit`'s fallback): the
catalog unit of the test, or the empty string. -/
def getDefaultUnit (test_name : String) : String :=
  match referenceRanges.lookup test_name with
  | none => ""
  | some r => r.unit

/-- One step of `LabMapper._deduplicate_values`: Python inserts into a dict
keyed by the exact `test_name`, keeping insertion order and replacing the
stored entry in place when the incoming one has strictly higher confidence. -/
def dedupIns : List LabValue → LabValue → List LabValue
  | [], v => [v]
  | e :: rest, v =>
      if e.test_name = v.test_name then
        (if e.confidence < v.confidence then v :: rest else e :: rest)
      else e :: dedupIns rest v

/-- `LabMapper._deduplicate_values`. -/
def deduplicateValues (values : List LabValue) : List LabValue :=
  values.foldl dedupIns []

/-- One step of `ExtractionService._merge_lab_values`: look for the first
existing entry with the same case-folded `test_name`; replace it when the
new value has strictly higher confidence, otherwise append at the end. -/
def mergeOne : List LabValue → LabValue → List LabValue
  | [], v => [v]
  | e :: rest, v =>
      if strLower e.test_name = strLower v.test_name then
        (if e.confidence < v.confidence then v :: rest else e :: rest)
      else e :: mergeOne rest v

/-- `ExtractionService._merge_lab_values`. -/
def mergeLabValues (existing_values new_values : List LabValue) : List LabValue :=
  new_values.foldl mergeOne existing_values

/-- `ExtractionService._calculate_overall_confidence`: mean of the
confidences, boosted by 1.1 (capped at 1.0) when at least three values were
recovered, rounded to three decimal places; 0.0 for the empty list. -/
def calculateOverallConfidence (lab_values : List LabValue) : ℚ :=
  if lab_values = [] then 0
  else
    let total := (lab_values.map LabValue.confidence).sum
    let average := total / lab_values.length
    let boosted := if 3 ≤ lab_values.length then min (average * 1.1) 1 else average
    pyRound boosted 3

/-- The manual-review gate of `ExtractionService.extract_document`:
confidence below 0.7 or a non-empty error list. -/
def requiresManualReview (confidence : ℚ) (errors : List String) : Bool :=
  decide (confidence < 0.7) || !errors.isEmpty

/-- `UnitConverter._normalize_unit`: case-fold, strip spaces, then map known
spelling variants. -/
def normalizeUnit (unit : String) : String :=
  if unit = "" then ""
  else
    let normalized := String.mk ((strLower unit).data.filter (fun c => c ≠ ' '))
    (unitMappings.lookup normalized).getD normalized

/-- `UnitConverter._get_conversion_category`: first category whose test list
contains the test name. -/
def getConversionCategory (test_name : String) : Option String :=
  (categoryMappings.find? (fun p => p.2.contains test_name)).map Prod.fst

/-- `UnitConverter._round_to_precision`: round to the test's decimal
precision (default 2). -/
def roundToPrecision (value : ℚ) (test_name : String) : ℚ :=
  pyRound value ((precisionMap.lookup test_name).getD 2)

/-- The dictionary `UnitConverter.convert_to_standard_unit` returns on
success; only the fields the pipeline reads back are modelled. -/
structure ConversionResult where
  value : ℚ
  unit : String
  converted : Bool
  conversion_factor : Option ℚ
deriving DecidableEq

/-- `UnitConverter.convert_to_standard_unit`: `none` when the test has no
standard unit, no conversion category, or no factor from the normalized
source unit to the normalized standard unit. -/
def convertToStandardUnit (test_name : String) (value : ℚ) (current_unit : String) :
    Option ConversionResult :=
  match standardUnits.lookup test_name with
  | none => none
  | some standard_unit =>
      let normalized_current := normalizeUnit current_unit
      let normalized_standard := normalizeUnit standard_unit
      if normalized_current = normalized_standard then
        some ⟨value, standard_unit, false, none⟩
      else
        match getConversionCategory test_name with
        | none => none
        | some category =>
            let conversions := (conversionFactors.lookup category).getD []
            match conversions.lookup normalized_current with
            | none => none
            | some row =>
                match row.lookup normalized_standard with
                | none => none
                | some factor =>
                    some ⟨roundToPrecision (value * factor) test_name,
                          standard_unit, true, some factor⟩

/-- Does the catalog know a conversion factor taking `unit` (normalized) to
the canonical unit of `test_name`?  Identity counts when the normalized
spellings already agree.  This reads the same static tables as
`convertToStandardUnit` but states the existence question directly. -/
def knownFactor (test_name : String) (unit : String) : Option ℚ :=
  match standardUnits.lookup test_name with
  | none => none
  | some standard_unit =>
      let nc := normalizeUnit unit
      let ns := normalizeUnit standard_unit
      if nc = ns then some 1
      else
        (getConversionCategory test_name).bind fun category =>
          (((conversionFactors.lookup category).getD []).lookup nc).bind fun row =>
            row.lookup ns

/-- The per-value body of `ExtractionService._process_lab_values`: apply
unit normalization (keeping the value untouched when it fails), then
recompute `is_abnormal` from the (possibly updated) value and unit. -/
def processLabValue (lab_value : LabValue) : LabValue :=
  let updated :=
    match convertToStandardUnit lab_value.test_name lab_value.value lab_value.unit with
    | none => lab_value
    | some r => { lab_value with value := r.value, unit := r.unit }
  { updated with
      is_abnormal := is_value_abnormal updated.test_name updated.value updated.unit }

/-- `ExtractionService._process_lab_values`. -/
def processLabValues (lab_values : List LabValue) : List LabValue :=
  lab_values.map processLabValue

/-- A match object as returned by the external regex engine (`re.Match`):
start and end offsets into the text and the first capture group. -/
structure TextMatch where
  start : ℕ
  stop : ℕ
  group1 : String
deriving DecidableEq

/-- The external Python `re` module: `finditer pattern text` and a boolean
`search pattern text`.  Pipeline theorems quantify over every engine. -/
structure ReEngine where
  finditer : String → String → List TextMatch
  search : String → String → Bool

/-- A regex engine that never matches; used to pin down concrete runs whose
behaviour does not depend on the engine. -/
def trivEngine : ReEngine := ⟨fun _ _ => [], fun _ _ => false⟩

/-- Python slice `s[a:b]` on the character sequence. -/
def strSlice (s : String) (a b : ℕ) : String := String.mk ((s.data.drop a).take (b - a))

/-- `LabMapper._calculate_extraction_confidence`, with the match object
represented by its first capture group (the only part the function reads).
Base 0.5; +0.2 for a `fasting` pattern; +0.2 when the canonical test name
occurs in the lowered pattern; +0.1 for a unit token in the context; +0.1
for reference-range language in the context; −0.3 for an implausible parsed
value (−0.2 when the group does not parse); clipped to [0.1, 1.0]. -/
def calculateExtractionConfidence (group1 context test_name pattern : String) : ℚ :=
  let confidence : ℚ := 0.5
  let confidence := if strContains (strLower pattern) "fasting" then confidence + 0.2 else confidence
  let confidence := if strContains (strLower pattern) test_name then confidence + 0.2 else confidence
  let confidence :=
    if unitPatterns.any (fun up => up.2.any (fun pat => strContains (strLower context) pat)) then
      confidence + 0.1
    else confidence
  let confidence :=
    if ["normal", "abnormal", "high", "low", "range"].any
        (fun ind => strContains (strLower context) ind) then
      confidence + 0.1
    else confidence
  let confidence :=
    match parseFloat group1 with
    | none => confidence - 0.2
    | some value =>
        match referenceRanges.lookup test_name with
        | none => confidence
        | some reference =>
            let min_val := reference.min.getD 0
            let max_val := reference.max.getD 1000
            if value < min_val * 0.1 ∨ max_val * 10 < value then confidence - 0.3
            else confidence
  max 0.1 (min 1.0 confidence)

/-- `LabMapper._detect_unit`: the first catalog unit one of whose patterns
matches the context, else the test's default unit. -/
def detectUnit (eng : ReEngine) (context : String) (test_name : String) : String :=
  match unitPatterns.find? (fun up => up.2.any (fun pat => eng.search pat context)) with
  | some up => up.1
  | none => getDefaultUnit test_name

/-- `LabMapper.extract_from_text` applied to the already-normalized text
(`_normalize_text` is a pair of `re.sub` calls and so lives behind the
external regex-engine boundary).  For each test and each of its patterns,
every regex match yields a candidate whose confidence is the extraction
confidence times the modifier; the candidates are then deduplicated. -/
def extractFromText (eng : ReEngine) (normalized_text : String)
    (confidence_modifier : ℚ) : List LabValue :=
  let extracted_values :=
    labPatterns.flatMap fun tp =>
      tp.2.flatMap fun pattern =>
        (eng.finditer pattern normalized_text).filterMap fun m =>
          match parseFloat m.group1 with
          | none => none
          | some value =>
              let start_pos := m.start - 50
              let end_pos := min normalized_text.length (m.stop + 50)
              let context := strSlice normalized_text start_pos end_pos
              let detected_unit := detectUnit eng context tp.1
              let confidence :=
                calculateExtractionConfidence m.group1 context tp.1 pattern *
                  confidence_modifier
              some ⟨tp.1, value, detected_unit, confidence,
                    is_value_abnormal tp.1 value detected_unit⟩
  deduplicateValues extracted_values

/-- First header whose lowered text contains one of the indicator words. -/
def findHeaderCol (headers : List String) (indicators : List String) : Option ℕ :=
  headers.findIdx? fun h => indicators.any fun ind => strContains (strLower h) ind

/-- `LabMapper._analyze_data_patterns`: statistical column-role inference
over the data cells; later qualifying columns overwrite earlier ones, as in
the source's sequential reassignment. -/
def analyzeDataPatterns (data : List (List String)) :
    Option ℕ × Option ℕ × Option ℕ :=
  if data = [] ∨ data.length < 2 then (none, none, none)
  else
    let num_cols := match data with | [] => 0 | r :: _ => r.length
    (List.range num_cols).foldl
      (fun acc col_idx =>
        let cells := (data.map fun row => strTrim (row.getD col_idx "")).filter (· ≠ "")
        let isTestName := fun (c : String) =>
          labPatterns.any fun tp => strContains (strLower c) tp.1
        let isUnitTok := fun (c : String) =>
          unitPatterns.any fun up => up.2.any fun pat => strContains (strLower c) pat
        let numeric_count := cells.countP isNumericCell
        let test_name_count := cells.countP fun c => !isNumericCell c && isTestName c
        let unit_count :=
          cells.countP fun c => !isNumericCell c && !isTestName c && isUnitTok c
        let total_cells := cells.length
        if total_cells = 0 then acc
        else if (0.7 : ℚ) * total_cells < numeric_count then (acc.1, some col_idx, acc.2.2)
        else if (0.3 : ℚ) * total_cells < test_name_count then (some col_idx, acc.2.1, acc.2.2)
        else if (0.5 : ℚ) * total_cells < unit_count then (acc.1, acc.2.1, some col_idx)
        else acc)
      (none, none, none)

/-- `LabMapper._identify_table_columns`: header keyword scan; when the test
or value column is not found there, fall back to `analyzeDataPatterns`
(which, as in the source, replaces all three columns). -/
def identifyTableColumns (headers : List String) (data : List (List String)) :
    Option ℕ × Option ℕ × Option ℕ :=
  let test_col := findHeaderCol headers ["test", "parameter", "name", "analyte", "component"]
  let value_col := findHeaderCol headers ["value", "result", "level", "concentration", "amount"]
  let unit_col := findHeaderCol headers ["unit", "units", "measurement", "uom"]
  if test_col = none ∨ value_col = none then analyzeDataPatterns data
  else (test_col, value_col, unit_col)

/-- `LabMapper._normalize_test_name`.  The direct alias dictionary is
consulted first.  The substring fallback loop is written in the source as
`any(b1 or b2)` over a boolean — `any` applied to a non-iterable — so
reaching it raises `TypeError` unconditionally; the model returns that
error, which the table loop in `extract_from_tables` catches per table. -/
def normalizeTestName (test_name : String) : Except String String :=
  let t := test_name|> strLower |> strTrim
  match nameMappings.lookup t with
  | some canonical => .ok canonical
  | none => .error "TypeError: argument of type bool is not iterable"

/-- `LabMapper._extract_unit_from_value`. -/
def extractUnitFromValue (eng : ReEngine) (value_str : String) : String :=
  match unitPatterns.find? (fun up => up.2.any fun pat => eng.search pat value_str) with
  | some up => up.1
  | none => ""

/-- The row loop of `LabMapper.extract_from_tables` for one table, given the
identified columns and the table confidence.  An error from
`normalizeTestName` aborts the rest of this table (the source's per-table
`except` clause), keeping the rows already emitted. -/
def processRows (eng : ReEngine) (confidence : ℚ) (test_col value_col : ℕ)
    (unit_col : Option ℕ) : List (List String) → List LabValue
  | [] => []
  | row :: rest =>
      if row.length ≤ Nat.max test_col value_col then
        processRows eng confidence test_col value_col unit_col rest
      else
        let test_name_raw := strTrim (row.getD test_col "")
        let value_raw := strTrim (row.getD value_col "")
        if test_name_raw = "" ∨ value_raw = "" ∨
            strLower test_name_raw ∈ ["test", "parameter", "name"] then
          processRows eng confidence test_col value_col unit_col rest
        else
          match normalizeTestName test_name_raw with
          | .error _ => []
          | .ok normalized_test_name =>
              match extractNumericValue value_raw with
              | none => processRows eng confidence test_col value_col unit_col rest
              | some numeric_value =>
                  let unit0 :=
                    match unit_col with
                    | some uc => if uc < row.length then strTrim (row.getD uc "") else ""
                    | none => ""
                  let unit1 := if unit0 = "" then extractUnitFromValue eng value_raw else unit0
                  let unit := if unit1 = "" then getDefaultUnit normalized_test_name else unit1
                  ⟨normalized_test_name, numeric_value, unit, confidence,
                    is_value_abnormal normalized_test_name numeric_value unit⟩ ::
                    processRows eng confidence test_col value_col unit_col rest

/-- One table record from the table-detection stage: cell grid, headers and
the detection accuracy figure (`table.get("accuracy", 0.8)`). -/
structure PTable where
  headers : List String
  data : List (List String)
  accuracy : Option ℚ
deriving DecidableEq

/-- `LabMapper.extract_from_tables`: identify columns per table (skipping
tables without a test and a value column), run the row loop with confidence
`min(0.9, accuracy)`, then deduplicate. -/
def extractFromTables (eng : ReEngine) (tables : List PTable) : List LabValue :=
  let extracted_values :=
    tables.flatMap fun table =>
      match identifyTableColumns table.headers table.data with
      | (some test_col, some value_col, unit_col) =>
          processRows eng (min 0.9 (table.accuracy.getD 0.8)) test_col value_col
            unit_col table.data
      | _ => []
  deduplicateValues extracted_values

/-- The mutable result dictionary of `ExtractionService.extract_document`,
restricted to the fields the claims inspect. -/
structure ExtractionState where
  lab_values : List LabValue
  confidence : ℚ
  method : String
  requires_manual_review : Bool
  errors : List String
deriving DecidableEq

/-- The freshly initialized result dictionary. -/
def initialState : ExtractionState := ⟨[], 0, "unknown", false, []⟩

/-- Stage 1 of `_extract_pdf`: extend with the table-derived values when any
tables were detected. -/
def pdfAfterTables (eng : ReEngine) (tables : List PTable) : ExtractionState :=
  if tables ≠ [] then
    { initialState with
        method := "camelot",
        lab_values := initialState.lab_values ++ extractFromTables eng tables }
  else initialState

/-- Stage 2 of `_extract_pdf`: merge in the text-derived values when the
text layer is non-empty (modifier 1.0). -/
def pdfAfterText (eng : ReEngine) (tables : List PTable) (text : String) :
    ExtractionState :=
  let s := pdfAfterTables eng tables
  if text ≠ "" then
    { s with
        method := if s.lab_values = [] then "pdfplumber" else s.method,
        lab_values := mergeLabValues s.lab_values (extractFromText eng text 1) }
  else s

/-- The stage-3 condition of `_extract_pdf`, line 139 of the source:
`not results["lab_values"] or results["confidence"] < 0.5`.  The state's
`confidence` field is read as it stands at that point. -/
def ocrGate (s : ExtractionState) : Bool :=
  s.lab_values.isEmpty || decide (s.confidence < 0.5)

/-- `ExtractionService._extract_with_ocr`: with a non-empty transcript,
extract text values at modifier 0.8; otherwise record the OCR error on the
shared result state and return no values. -/
def extractWithOcr (eng : ReEngine) (ocrText : String) (s : ExtractionState) :
    List LabValue × ExtractionState :=
  if ocrText ≠ "" then (extractFromText eng ocrText 0.8, s)
  else ([], { s with errors := s.errors ++ ["OCR failed to extract readable text"] })

/-- `ExtractionService._extract_pdf`: tables, then text, then the OCR
fallback behind `ocrGate`. -/
def extractPdf (eng : ReEngine) (tables : List PTable) (text ocrText : String) :
    ExtractionState :=
  let s := pdfAfterText eng tables text
  if ocrGate s then
    let r := extractWithOcr eng ocrText s
    if r.1 ≠ [] then
      { r.2 with
          method := if r.2.lab_values = [] then "ocr" else r.2.method,
          lab_values := mergeLabValues r.2.lab_values r.1 }
    else r.2
  else s

/-- `ExtractionService._extract_image`: OCR only; the OCR values are
assigned (not merged). -/
def extractImage (eng : ReEngine) (ocrText : String) : ExtractionState :=
  let s := { initialState with method := "ocr" }
  let r := extractWithOcr eng ocrText s
  { r.2 with lab_values := r.1 }

/-- The tail of `extract_document`: normalize the values when any were
found, compute the overall confidence and the manual-review gate. -/
def finalizeResult (s : ExtractionState) : ExtractionState :=
  let vals := if s.lab_values ≠ [] then processLabValues s.lab_values else s.lab_values
  let conf := calculateOverallConfidence vals
  { s with
      lab_values := vals,
      confidence := conf,
      requires_manual_review := requiresManualReview conf s.errors }

/-- The short-circuit result built in `extract_document`'s outer `except`. -/
def failedResult (message : String) : ExtractionState :=
  ⟨[], 0, "failed", true, [message]⟩

/-- `ExtractionService.extract_document`, parameterized by the regex engine
and by the outputs of the external extraction libraries: the detected
tables, the native text layer and the OCR transcript.  An unsupported media
type raises `ValueError`, caught by the outer handler into `failedResult`. -/
def extract_document (eng : ReEngine) (file_type : String) (tables : List PTable)
    (text ocrText : String) : ExtractionState :=
  let ft := strLower file_type
  if strContains ft "pdf" then finalizeResult (extractPdf eng tables text ocrText)
  else if ["jpeg", "jpg", "png"].any (fun t => strContains ft t) then
    finalizeResult (extractImage eng ocrText)
  else failedResult ("Unsupported file type: " ++ ft)

/-- C10: `is_value_abnormal` never depends on its unit argument — the raw
numeric value is compared against the catalog range whatever unit string is
supplied. -/
theorem is_value_abnormal_ignores_unit (test_name : String) (value : ℚ)
    (u1 u2 : String) :
    is_value_abnormal test_name value u1 = is_value_abnormal test_name value u2 := rfl

/-- C3: when two candidate lab values share a test name (case-insensitively),
`_merge_lab_values` keeps the strictly-higher-confidence candidate whichever
order the two arrive in, and on equal confidence keeps the earliest-seen
candidate. -/
theorem merge_precedence (a b : LabValue)
    (hname : strLower a.test_name = strLower b.test_name) :
    (a.confidence < b.confidence →
      mergeLabValues [a] [b] = [b] ∧ mergeLabValues [b] [a] = [b]) ∧
    (b.confidence < a.confidence →
      mergeLabValues [a] [b] = [a] ∧ mergeLabValues [b] [a] = [a]) ∧
    (a.confidence = b.confidence →
      mergeLabValues [a] [b] = [a] ∧ mergeLabValues [b] [a] = [b]) := by
  have e1 : mergeLabValues [a] [b] =
      if a.confidence < b.confidence then [b] else [a] := by
    simp [mergeLabValues, mergeOne, hname]
  have e2 : mergeLabValues [b] [a] =
      if b.confidence < a.confidence then [a] else [b] := by
    simp [mergeLabValues, mergeOne, hname]
  refine ⟨fun h => ⟨?_, ?_⟩, fun h => ⟨?_, ?_⟩, fun h => ⟨?_, ?_⟩⟩
  · rw [e1, if_pos h]
  · rw [e2, if_neg (lt_asymm h)]
  · rw [e1, if_neg (lt_asymm h)]
  · rw [e2, if_pos h]
  · rw [e1, if_neg (by rw [h]; exact lt_irrefl _)]
  · rw [e2, if_neg (by rw [h]; exact lt_irrefl _)]

/-- Witness for C3 at the confidences 0.6 and 0.9 of the spec's example. -/
theorem merge_precedence_witness :
    strLower "hba1c" = strLower "HbA1c" ∧
    mergeLabValues [⟨"hba1c", 7.2, "%", 0.6, none⟩] [⟨"HbA1c", 6, "%", 0.9, none⟩] =
      [⟨"HbA1c", 6, "%", 0.9, none⟩] ∧
    mergeLabValues [⟨"HbA1c", 6, "%", 0.9, none⟩] [⟨"hba1c", 7.2, "%", 0.6, none⟩] =
      [⟨"HbA1c", 6, "%", 0.9, none⟩] := by
  have h := merge_precedence ⟨"hba1c", 7.2, "%", 0.6, none⟩ ⟨"HbA1c", 6, "%", 0.9, none⟩
    (by decide)
  exact ⟨by decide, (h.1 (by norm_num)).1, (h.1 (by norm_num)).2⟩

/-- C9: an input whose declared media type is neither PDF nor a supported
image type produces a failed result instead of raising: no lab values,
confidence 0, manual review required, and the causing message recorded. -/
theorem extract_document_unsupported_type (eng : ReEngine) (file_type : String)
    (tables : List PTable) (text ocrText : String)
    (hpdf : strContains (strLower file_type) "pdf" = false)
    (himg : (["jpeg", "jpg", "png"].any fun t => strContains (strLower file_type) t) = false) :
    (extract_document eng file_type tables text ocrText).lab_values = [] ∧
    (extract_document eng file_type tables text ocrText).confidence = 0 ∧
    (extract_document eng file_type tables text ocrText).requires_manual_review = true ∧
    ("Unsupported file type: " ++ strLower file_type) ∈
      (extract_document eng file_type tables text ocrText).errors := by
  simp [extract_document, hpdf, himg, failedResult]

/-- Witness for C9 on the plain-text media type. -/
theorem extract_document_unsupported_type_witness :
    strContains (strLower "text/plain") "pdf" = false ∧
    (extract_document trivEngine "text/plain" [] "" "").lab_values = [] ∧
    (extract_document trivEngine "text/plain" [] "" "").confidence = 0 ∧
    (extract_document trivEngine "text/plain" [] "" "").requires_manual_review = true ∧
    ("Unsupported file type: " ++ strLower "text/plain") ∈
      (extract_document trivEngine "text/plain" [] "" "").errors := by
  have h := extract_document_unsupported_type trivEngine "text/plain" [] "" ""
    (by decide) (by decide)
  exact ⟨by decide, h.1, h.2.1, h.2.2.1, h.2.2.2⟩

/-- C8: when the catalog knows no conversion factor from the (normalized)
detected unit to the test's canonical unit, `convert_to_standard_unit`
returns nothing, and `_process_lab_values` keeps the value and unit exactly
as they were. -/
theorem conversion_gap_preserves_value (lv : LabValue)
    (h : knownFactor lv.test_name lv.unit = none) :
    convertToStandardUnit lv.test_name lv.value lv.unit = none ∧
    (processLabValue lv).value = lv.value ∧ (processLabValue lv).unit = lv.unit := by
  have hconv : convertToStandardUnit lv.test_name lv.value lv.unit = none := by
    simp only [knownFactor] at h
    simp only [convertToStandardUnit]
    rcases hsu : standardUnits.lookup lv.test_name with _ | su
    · simp only [hsu]
    · simp only [hsu] at h ⊢
      by_cases hne : normalizeUnit lv.unit = normalizeUnit su
      · rw [if_pos hne] at h
        exact absurd h (by simp)
      · rw [if_neg hne] at h
        rw [if_neg hne]
        rcases hcat : getConversionCategory lv.test_name with _ | cat
        · simp only [hcat]
        · simp only [hcat, Option.bind_eq_none, Option.mem_def, Option.some.injEq,
            forall_eq] at h
          rcases hrow : ((conversionFactors.lookup cat).getD []).lookup
              (normalizeUnit lv.unit) with _ | row
          · simp only [hrow]
          · have := h cat rfl row hrow
            simp only [hrow, this]
  refine ⟨hconv, ?_, ?_⟩ <;> simp [processLabValue, hconv]

/-- Witness for C8: HbA1c reported in mmol/L, a unit with no factor to %. -/
theorem conversion_gap_preserves_value_witness :
    knownFactor "hba1c" "mmol/L" = none ∧
    convertToStandardUnit "hba1c" 7.2 "mmol/L" = none ∧
    (processLabValue ⟨"hba1c", 7.2, "mmol/L", 0.9, none⟩).value = 7.2 ∧
    (processLabValue ⟨"hba1c", 7.2, "mmol/L", 0.9, none⟩).unit = "mmol/L" := by
  have h := conversion_gap_preserves_value ⟨"hba1c", 7.2, "mmol/L", 0.9, none⟩ (by decide)
  exact ⟨by decide, h.1, h.2.1, h.2.2⟩

/-- A table whose single row carries an albumin reading at detection
accuracy 0.95, so its lab value enters the pipeline with confidence 0.9. -/
def c4Table : PTable := ⟨["Test", "Result", "Units"], [["albumin", "4.0", "g/dL"]], some 0.95⟩

/-- C4: the stage-3 gate of `_extract_pdf` reads `results["confidence"]`
before any confidence has been computed into it, so the gate is true for
every input and the OCR stage always runs — in particular on a document
whose lab values are non-empty after the text merge and whose provisional
overall confidence is at least 0.5. -/
theorem ocr_gate_always_fires :
    (∀ (eng : ReEngine) (tables : List PTable) (text : String),
      ocrGate (pdfAfterText eng tables text) = true) ∧
    (pdfAfterText trivEngine [c4Table] "").lab_values ≠ [] ∧
    (1/2 : ℚ) ≤ calculateOverallConfidence (pdfAfterText trivEngine [c4Table] "").lab_values := by
  refine ⟨?_, of_decide_eq_true (by with_unfolding_all rfl),
    of_decide_eq_true (by with_unfolding_all rfl)⟩
  intro eng tables text
  have hconf : (pdfAfterText eng tables text).confidence = 0 := by
    unfold pdfAfterText pdfAfterTables initialState
    split_ifs <;> rfl
  simp [ocrGate, hconf]
  norm_num

/-- The claim's (unrounded) overall-confidence formula: the mean of the
confidences, times 1.1 and capped at 1.0 when there are at least three
values. -/
def claimOverallConfidence (lab_values : List LabValue) : ℚ :=
  let average := (lab_values.map LabValue.confidence).sum / lab_values.length
  if 3 ≤ lab_values.length then min (average * 1.1) 1 else average

/-- Three surviving values whose boosted mean confidence has an infinite
decimal expansion, separating the code's rounded result from the claim's. -/
def c5List : List LabValue :=
  [⟨"hba1c", 7.2, "%", 0.5, none⟩, ⟨"tsh", 2, "mIU/L", 0.5, none⟩,
   ⟨"alt", 30, "U/L", 0.6, none⟩]

/-- C5 counterexample: on confidences 0.5, 0.5, 0.6 the code returns the
three-decimal rounding 0.587, not the exact boosted mean 44/75 = 0.58666…,
so the final overall confidence does not equal the claimed expression. -/
theorem overall_confidence_rounding_counterexample :
    calculateOverallConfidence c5List = 587/1000 ∧
    claimOverallConfidence c5List = 44/75 ∧
    (587/1000 : ℚ) ≠ 44/75 := by
  exact ⟨by with_unfolding_all rfl, by with_unfolding_all rfl, by norm_num⟩

/-- C5 (amended): the final overall confidence equals the claimed boosted
mean rounded half-to-even to three decimal places, and manual review is
required exactly when that (rounded) confidence is below 0.7 or the error
list is non-empty. -/
theorem overall_confidence_formula (lab_values : List LabValue) (errors : List String)
    (h : lab_values ≠ []) :
    calculateOverallConfidence lab_values = pyRound (claimOverallConfidence lab_values) 3 ∧
    (requiresManualReview (calculateOverallConfidence lab_values) errors = true ↔
      (calculateOverallConfidence lab_values < 0.7 ∨ errors ≠ [])) := by
  constructor
  · simp [calculateOverallConfidence, claimOverallConfidence, h]
  · simp [requiresManualReview, List.isEmpty_iff]

/-- Witness for C5 (amended) on a single value with confidence 0.8. -/
theorem overall_confidence_formula_witness :
    ([⟨"hba1c", 7.2, "%", 0.8, none⟩] : List LabValue) ≠ [] ∧
    calculateOverallConfidence [⟨"hba1c", 7.2, "%", 0.8, none⟩] =
      pyRound (claimOverallConfidence [⟨"hba1c", 7.2, "%", 0.8, none⟩]) 3 := by
  have h := overall_confidence_formula [⟨"hba1c", 7.2, "%", 0.8, none⟩] [] (by decide)
  exact ⟨by decide, h.1⟩

/-- The exact table of the spec's scenario: header `[Test, Result, Units]`,
data row `[HbA1c, 7.2, %]`. -/
def c6Table : PTable := ⟨["Test", "Result", "Units"], [["HbA1c", "7.2", "%"]], none⟩

/-- C6: on the spec's scenario table the code produces no lab value at all
instead of the claimed hba1c reading — `_normalize_test_name`'s fallback
loop applies `any` to a boolean, an unconditional `TypeError` for any name
(such as `hba1c`) that is not a key of the direct alias dictionary, and the
per-table handler then discards the whole table. -/
theorem hba1c_table_scenario_returns_empty :
    (∀ eng : ReEngine, extractFromTables eng [c6Table] = []) ∧
    normalizeTestName "HbA1c" =
      Except.error "TypeError: argument of type bool is not iterable" :=
  ⟨fun _ => rfl, rfl⟩

/-- The claim's additive formula for the text-path extraction confidence,
as a function of the five boosting/penalty conditions. -/
def claimTextConfidence (qualifier name_in_pattern unit_in_context
    range_in_context implausible : Bool) : ℚ :=
  max 0.1 (min 1.0
    (0.5 + (if qualifier then 0.2 else 0) + (if name_in_pattern then 0.2 else 0) +
      (if unit_in_context then 0.1 else 0) + (if range_in_context then 0.1 else 0) -
      (if implausible then 0.3 else 0)))

/-- C7: for a match whose capture group parses and whose test has a catalog
range, the extraction confidence is exactly base 0.5, +0.2 for a `fasting`
qualifier in the pattern, +0.2 when the canonical test name appears in the
lowered pattern, +0.1 for a unit token in the context window, +0.1 for
reference-range language in the context window, −0.3 when the parsed value
is below 10% of the catalog minimum or above 10× the catalog maximum, all
clipped to [0.1, 1.0]. -/
theorem text_confidence_formula (group1 context test_name pattern : String)
    (v : ℚ) (r : RefRange) (mn mx : ℚ)
    (hp : parseFloat group1 = some v)
    (hr : referenceRanges.lookup test_name = some r)
    (hmn : r.min = some mn) (hmx : r.max = some mx) :
    calculateExtractionConfidence group1 context test_name pattern =
      claimTextConfidence (strContains (strLower pattern) "fasting")
        (strContains (strLower pattern) test_name)
        (unitPatterns.any fun up => up.2.any fun pat => strContains (strLower context) pat)
        (["normal", "abnormal", "high", "low", "range"].any fun ind =>
          strContains (strLower context) ind)
        (decide (v < mn * 0.1 ∨ mx * 10 < v)) := by
  simp only [calculateExtractionConfidence, claimTextConfidence, hp, hr, hmn, hmx,
    Option.getD_some, decide_eq_true_eq]
  split_ifs <;> norm_num

/-- Witness for C7: an HbA1c reading of 7.2 with the canonical name in the
pattern and a bare context, giving confidence 0.7. -/
theorem text_confidence_formula_witness :
    parseFloat "7.2" = some 7.2 ∧
    referenceRanges.lookup "hba1c" = some ⟨some 4.0, some 5.6, "%", some 7.0, none⟩ ∧
    calculateExtractionConfidence "7.2" "hba1c: 7.2" "hba1c" "hba1c[:\\s]*(\\d+(?:\\.\\d+)?)" =
      claimTextConfidence
        (strContains (strLower "hba1c[:\\s]*(\\d+(?:\\.\\d+)?)") "fasting")
        (strContains (strLower "hba1c[:\\s]*(\\d+(?:\\.\\d+)?)") "hba1c")
        (unitPatterns.any fun up => up.2.any fun pat =>
          strContains (strLower "hba1c: 7.2") pat)
        (["normal", "abnormal", "high", "low", "range"].any fun ind =>
          strContains (strLower "hba1c: 7.2") ind)
        (decide ((7.2 : ℚ) < 4.0 * 0.1 ∨ (5.6 : ℚ) * 10 < 7.2)) := by
  refine ⟨by with_unfolding_all rfl, by with_unfolding_all rfl, ?_⟩
  exact text_confidence_formula "7.2" "hba1c: 7.2" "hba1c" "hba1c[:\\s]*(\\d+(?:\\.\\d+)?)"
    7.2 ⟨some 4.0, some 5.6, "%", some 7.0, none⟩ 4.0 5.6
    (by with_unfolding_all rfl) (by with_unfolding_all rfl) rfl rfl

/-- An element of a dedup insertion was in the accumulator or is the
inserted value. -/
theorem mem_dedupIns : ∀ {acc : List LabValue} {x v : LabValue},
    x ∈ dedupIns acc v → x ∈ acc ∨ x = v := by
  intro acc
  induction acc with
  | nil =>
      intro x v h
      simp only [dedupIns, List.mem_singleton] at h
      exact Or.inr h
  | cons e rest ih =>
      intro x v h
      simp only [dedupIns] at h
      split_ifs at h with h1 h2
      · rcases List.mem_cons.mp h with hx | hx
        · exact Or.inr hx
        · exact Or.inl (List.mem_cons_of_mem _ hx)
      · exact Or.inl h
      · rcases List.mem_cons.mp h with hx | hx
        · exact Or.inl (by simp [hx])
        · rcases ih hx with h3 | h3
          · exact Or.inl (List.mem_cons_of_mem _ h3)
          · exact Or.inr h3

/-- Elements surviving the dedup fold come from the accumulator or the input. -/
theorem mem_foldl_dedupIns : ∀ {l acc : List LabValue} {x : LabValue},
    x ∈ l.foldl dedupIns acc → x ∈ acc ∨ x ∈ l := by
  intro l
  induction l with
  | nil => intro acc x h; exact Or.inl h
  | cons v rest ih =>
      intro acc x h
      rcases ih h with h1 | h1
      · rcases mem_dedupIns h1 with h2 | h2
        · exact Or.inl h2
        · exact Or.inr (by simp [h2])
      · exact Or.inr (List.mem_cons_of_mem _ h1)

/-- `_deduplicate_values` only returns elements of its input. -/
theorem mem_deduplicateValues {x : LabValue} {l : List LabValue}
    (h : x ∈ deduplicateValues l) : x ∈ l := by
  rcases mem_foldl_dedupIns h with h1 | h1
  · simp at h1
  · exact h1

/-- Test names after a dedup insertion: the old ones or the new one. -/
theorem mem_names_dedupIns {s : String} {acc : List LabValue} {v : LabValue}
    (h : s ∈ (dedupIns acc v).map LabValue.test_name) :
    s ∈ acc.map LabValue.test_name ∨ s = v.test_name := by
  rcases List.mem_map.mp h with ⟨y, hy, rfl⟩
  rcases mem_dedupIns hy with h1 | h1
  · exact Or.inl (List.mem_map_of_mem _ h1)
  · exact Or.inr (by rw [h1])

/-- A dedup insertion preserves distinctness of the exact test names. -/
theorem nodup_names_dedupIns : ∀ {acc : List LabValue} (v : LabValue),
    (acc.map LabValue.test_name).Nodup → ((dedupIns acc v).map LabValue.test_name).Nodup := by
  intro acc
  induction acc with
  | nil => intro v _; simp [dedupIns]
  | cons e rest ih =>
      intro v h
      simp only [List.map_cons, List.nodup_cons] at h
      obtain ⟨he, hrest⟩ := h
      simp only [dedupIns]
      split_ifs with h1 h2
      · simp only [List.map_cons, List.nodup_cons]
        exact ⟨by rw [← h1]; exact he, hrest⟩
      · simp only [List.map_cons, List.nodup_cons]
        exact ⟨he, hrest⟩
      · simp only [List.map_cons, List.nodup_cons]
        refine ⟨fun hmem => ?_, ih v hrest⟩
        rcases mem_names_dedupIns hmem with h3 | h3
        · exact he h3
        · exact h1 h3

/-- The dedup fold keeps the exact test names distinct. -/
theorem nodup_names_foldl_dedupIns : ∀ {l acc : List LabValue},
    (acc.map LabValue.test_name).Nodup →
    ((l.foldl dedupIns acc).map LabValue.test_name).Nodup := by
  intro l
  induction l with
  | nil => intro acc h; exact h
  | cons v rest ih => intro acc h; exact ih (nodup_names_dedupIns v h)

/-- `_deduplicate_values` returns at most one entry per exact test name. -/
theorem nodup_names_deduplicateValues (l : List LabValue) :
    ((deduplicateValues l).map LabValue.test_name).Nodup :=
  nodup_names_foldl_dedupIns (by simp)

/-- Case-folded test names after one merge step: the old ones or the new one. -/
theorem mem_lnames_mergeOne {s : String} : ∀ {acc : List LabValue} {v : LabValue},
    s ∈ (mergeOne acc v).map (fun w => strLower w.test_name) →
    s ∈ acc.map (fun w => strLower w.test_name) ∨ s = strLower v.test_name := by
  intro acc
  induction acc with
  | nil =>
      intro v h
      simp only [mergeOne, List.map_cons, List.map_nil, List.mem_singleton] at h
      exact Or.inr h
  | cons e rest ih =>
      intro v h
      simp only [mergeOne] at h
      split_ifs at h with h1 h2
      · simp only [List.map_cons, List.mem_cons] at h
        rcases h with hx | hx
        · exact Or.inr hx
        · exact Or.inl (by simp only [List.map_cons, List.mem_cons]; exact Or.inr hx)
      · exact Or.inl h
      · simp only [List.map_cons, List.mem_cons] at h
        rcases h with hx | hx
        · exact Or.inl (by simp only [List.map_cons, List.mem_cons]; exact Or.inl hx)
        · rcases ih hx with h3 | h3
          · exact Or.inl (by simp only [List.map_cons, List.mem_cons]; exact Or.inr h3)
          · exact Or.inr h3

/-- One `_merge_lab_values` step preserves distinctness of the case-folded
test names. -/
theorem nodup_lnames_mergeOne : ∀ {acc : List LabValue} (v : LabValue),
    (acc.map (fun w => strLower w.test_name)).Nodup →
    ((mergeOne acc v).map (fun w => strLower w.test_name)).Nodup := by
  intro acc
  induction acc with
  | nil => intro v _; simp [mergeOne]
  | cons e rest ih =>
      intro v h
      simp only [List.map_cons, List.nodup_cons] at h
      obtain ⟨he, hrest⟩ := h
      simp only [mergeOne]
      split_ifs with h1 h2
      · simp only [List.map_cons, List.nodup_cons]
        exact ⟨by rw [← h1]; exact he, hrest⟩
      · simp only [List.map_cons, List.nodup_cons]
        exact ⟨he, hrest⟩
      · simp only [List.map_cons, List.nodup_cons]
        refine ⟨fun hmem => ?_, ih v hrest⟩
        rcases mem_lnames_mergeOne hmem with h3 | h3
        · exact he h3
        · exact h1 h3

/-- `_merge_lab_values` preserves distinctness of the case-folded test names
of the existing set, whatever the incoming candidates are. -/
theorem nodup_lnames_mergeLabValues (new_values : List LabValue) :
    ∀ {existing_values : List LabValue},
    (existing_values.map (fun w => strLower w.test_name)).Nodup →
    ((mergeLabValues existing_values new_values).map
      (fun w => strLower w.test_name)).Nodup := by
  induction new_values with
  | nil => intro acc h; exact h
  | cons v rest ih => intro acc h; exact ih (nodup_lnames_mergeOne v h)

/-- A list of values with distinct exact names, all already case-folded,
also has distinct case-folded names. -/
theorem lnames_nodup_of_names_nodup {l : List LabValue}
    (h : (l.map LabValue.test_name).Nodup)
    (hfix : ∀ v ∈ l, strLower v.test_name = v.test_name) :
    (l.map (fun v => strLower v.test_name)).Nodup := by
  have heq : l.map (fun v => strLower v.test_name) = l.map LabValue.test_name :=
    List.map_congr_left hfix
  rw [heq]
  exact h

/-- A successful `List.lookup` exhibits a member of the association list. -/
theorem lookup_mem {β : Type} : ∀ {l : List (String × β)} {k : String} {v : β},
    List.lookup k l = some v → (k, v) ∈ l := by
  intro l
  induction l with
  | nil => intro k v h; simp [List.lookup] at h
  | cons p rest ih =>
      intro k v h
      obtain ⟨a, b⟩ := p
      rw [List.lookup] at h
      split at h
      next heq =>
        cases h
        have hk : k = a := eq_of_beq heq
        simp [hk]
      next => exact List.mem_cons_of_mem _ (ih h)

/-- Every value emitted by the table row loop carries the table confidence
and a test name drawn from the alias dictionary's canonical names. -/
theorem mem_processRows {eng : ReEngine} {confidence : ℚ} {test_col value_col : ℕ}
    {unit_col : Option ℕ} : ∀ {rows : List (List String)} {v : LabValue},
    v ∈ processRows eng confidence test_col value_col unit_col rows →
    v.confidence = confidence ∧ v.test_name ∈ nameMappings.map Prod.snd := by
  intro rows
  induction rows with
  | nil => intro v h; simp [processRows] at h
  | cons row rest ih =>
      intro v h
      simp only [processRows] at h
      by_cases h1 : row.length ≤ Nat.max test_col value_col
      · rw [if_pos h1] at h; exact ih h
      · rw [if_neg h1] at h
        by_cases h2 : strTrim (row.getD test_col "") = "" ∨
            strTrim (row.getD value_col "") = "" ∨
            strLower (strTrim (row.getD test_col "")) ∈ ["test", "parameter", "name"]
        · rw [if_pos h2] at h; exact ih h
        · rw [if_neg h2] at h
          rcases hn : normalizeTestName (strTrim (row.getD test_col "")) with e | name
          · rw [hn] at h; simp at h
          · rw [hn] at h
            rcases hx : extractNumericValue (strTrim (row.getD value_col "")) with _ | nv
            · rw [hx] at h; exact ih h
            · rw [hx] at h
              rcases List.mem_cons.mp h with hv | hv
              · subst hv
                refine ⟨rfl, ?_⟩
                simp only [normalizeTestName] at hn
                rcases hlk : List.lookup
                    (strTrim (strLower (strTrim (row.getD test_col "")))) nameMappings with
                  _ | c
                · rw [hlk] at hn; cases hn
                · rw [hlk] at hn
                  cases hn
                  exact List.mem_map_of_mem Prod.snd (lookup_mem hlk)
              · exact ih hv

/-- Every value produced by the text path has a catalog test name and a
confidence of the form extraction-confidence × modifier. -/
theorem extractFromText_facts {eng : ReEngine} {normalized_text : String}
    {modifier : ℚ} {v : LabValue} (h : v ∈ extractFromText eng normalized_text modifier) :
    v.test_name ∈ labPatterns.map Prod.fst ∧
    ∃ g c p, v.confidence = calculateExtractionConfidence g c v.test_name p * modifier := by
  simp only [extractFromText] at h
  have h2 := mem_deduplicateValues h
  rcases List.mem_flatMap.mp h2 with ⟨tp, htp, h3⟩
  rcases List.mem_flatMap.mp h3 with ⟨pattern, hpat, h4⟩
  rcases List.mem_filterMap.mp h4 with ⟨m, hm, hf⟩
  rcases hpf : parseFloat m.group1 with _ | value
  · rw [hpf] at hf; cases hf
  · rw [hpf] at hf
    have hv := Option.some.inj hf
    subst hv
    exact ⟨List.mem_map_of_mem Prod.fst htp,
      m.group1, strSlice normalized_text (m.start - 50)
        (min normalized_text.length (m.stop + 50)), pattern, rfl⟩

/-- Every value produced by the table path has a canonical alias name and
carries the table confidence `min(0.9, accuracy)` of some input table. -/
theorem extractFromTables_facts {eng : ReEngine} {tables : List PTable} {v : LabValue}
    (h : v ∈ extractFromTables eng tables) :
    v.test_name ∈ nameMappings.map Prod.snd ∧
    ∃ t ∈ tables, v.confidence = min 0.9 (t.accuracy.getD 0.8) := by
  simp only [extractFromTables] at h
  have h2 := mem_deduplicateValues h
  rcases List.mem_flatMap.mp h2 with ⟨t, ht, h3⟩
  rcases hcols : identifyTableColumns t.headers t.data with ⟨tcol, vcol, ucol⟩
  rw [hcols] at h3
  rcases tcol with _ | tc
  · simp at h3
  · rcases vcol with _ | vc
    · simp at h3
    · have hp := mem_processRows h3
      exact ⟨hp.2, t, ht, hp.1⟩

/-- The canonical test names of the text path are already lower-case. -/
theorem nodup_lnames_extractFromText (eng : ReEngine) (normalized_text : String)
    (modifier : ℚ) :
    ((extractFromText eng normalized_text modifier).map
      (fun v => strLower v.test_name)).Nodup := by
  apply lnames_nodup_of_names_nodup
  · simp only [extractFromText]
    exact nodup_names_deduplicateValues _
  · intro v hv
    have h1 := (extractFromText_facts hv).1
    have hball : ∀ s ∈ labPatterns.map Prod.fst, strLower s = s := by decide
    exact hball _ h1

/-- The canonical test names of the table path are already lower-case. -/
theorem nodup_lnames_extractFromTables (eng : ReEngine) (tables : List PTable) :
    ((extractFromTables eng tables).map (fun v => strLower v.test_name)).Nodup := by
  apply lnames_nodup_of_names_nodup
  · simp only [extractFromTables]
    exact nodup_names_deduplicateValues _
  · intro v hv
    have h1 := (extractFromTables_facts hv).1
    have hball : ∀ s ∈ nameMappings.map Prod.snd, strLower s = s := by decide
    exact hball _ h1

/-- `_process_lab_values` never changes a value's test name. -/
theorem processLabValue_test_name (lv : LabValue) :
    (processLabValue lv).test_name = lv.test_name := by
  cases h : convertToStandardUnit lv.test_name lv.value lv.unit <;>
    simp [processLabValue, h]

/-- The case-folded test names are unchanged by `_process_lab_values`. -/
theorem lnames_processLabValues (l : List LabValue) :
    (processLabValues l).map (fun v => strLower v.test_name) =
      l.map (fun v => strLower v.test_name) := by
  simp only [processLabValues, List.map_map]
  exact List.map_congr_left fun v _ => by
    simp [Function.comp, processLabValue_test_name]

/-- Finalization preserves distinctness of the case-folded test names. -/
theorem nodup_lnames_finalizeResult {s : ExtractionState}
    (h : (s.lab_values.map (fun v => strLower v.test_name)).Nodup) :
    ((finalizeResult s).lab_values.map (fun v => strLower v.test_name)).Nodup := by
  simp only [finalizeResult]
  split_ifs with h1
  · rw [lnames_processLabValues]; exact h
  · exact h

/-- After stage 1 of the PDF path the case-folded test names are distinct. -/
theorem nodup_lnames_pdfAfterTables (eng : ReEngine) (tables : List PTable) :
    ((pdfAfterTables eng tables).lab_values.map
      (fun v => strLower v.test_name)).Nodup := by
  simp only [pdfAfterTables, initialState]
  split_ifs with h
  · exact nodup_lnames_extractFromTables eng tables
  · simp

/-- After stage 2 of the PDF path the case-folded test names are distinct. -/
theorem nodup_lnames_pdfAfterText (eng : ReEngine) (tables : List PTable)
    (text : String) :
    ((pdfAfterText eng tables text).lab_values.map
      (fun v => strLower v.test_name)).Nodup := by
  simp only [pdfAfterText]
  split_ifs <;>
    first
      | exact nodup_lnames_mergeLabValues _ (nodup_lnames_pdfAfterTables eng tables)
      | exact nodup_lnames_pdfAfterTables eng tables

/-- After the whole PDF path the case-folded test names are distinct. -/
theorem nodup_lnames_extractPdf (eng : ReEngine) (tables : List PTable)
    (text ocrText : String) :
    ((extractPdf eng tables text ocrText).lab_values.map
      (fun v => strLower v.test_name)).Nodup := by
  simp only [extractPdf, extractWithOcr]
  split_ifs <;>
    first
      | exact nodup_lnames_mergeLabValues _ (nodup_lnames_pdfAfterText eng tables text)
      | exact nodup_lnames_pdfAfterText eng tables text

/-- After the image path the case-folded test names are distinct. -/
theorem nodup_lnames_extractImage (eng : ReEngine) (ocrText : String) :
    ((extractImage eng ocrText).lab_values.map
      (fun v => strLower v.test_name)).Nodup := by
  simp only [extractImage, extractWithOcr, initialState]
  split_ifs with h
  · exact nodup_lnames_extractFromText eng ocrText 0.8
  · simp

/-- C1: for every document — whatever the external table, text and OCR
stages deliver — the lab values returned by `extract_document` contain at
most one entry per test name, compared case-insensitively. -/
theorem extract_document_unique_test_names (eng : ReEngine) (file_type : String)
    (tables : List PTable) (text ocrText : String) :
    ((extract_document eng file_type tables text ocrText).lab_values.map
      (fun v => strLower v.test_name)).Nodup := by
  simp only [extract_document]
  split_ifs with h1 h2
  · exact nodup_lnames_finalizeResult (nodup_lnames_extractPdf eng tables text ocrText)
  · exact nodup_lnames_finalizeResult (nodup_lnames_extractImage eng ocrText)
  · simp [failedResult]

/-- The clip at the end of `_calculate_extraction_confidence` bounds it by
[0.1, 1]. -/
theorem calculateExtractionConfidence_bounds (g c tn p : String) :
    (0.1 : ℚ) ≤ calculateExtractionConfidence g c tn p ∧
    calculateExtractionConfidence g c tn p ≤ 1 := by
  simp only [calculateExtractionConfidence]
  exact ⟨le_max_left _ _,
    max_le (by norm_num) (le_trans (min_le_left _ _) (by norm_num))⟩

/-- A table whose accuracy figure is negative; its row enters the result
with a negative confidence. -/
def c2Table : PTable := ⟨["Test", "Result", "Units"], [["albumin", "4.0", "g/dL"]], some (-1)⟩

/-- C2 counterexample: with a table accuracy of −1 the produced lab value
has confidence `min(0.9, −1) = −1 < 0`, so the table path does not keep
confidences within [0, 1] for arbitrary input table records. -/
theorem table_confidence_negative :
    (extractFromTables trivEngine [c2Table]).map LabValue.confidence = [-1] ∧
    ((-1 : ℚ) < 0) :=
  ⟨by with_unfolding_all rfl, by norm_num⟩

/-- C2 (amended): every text-path value with a modifier in [0,1] has
confidence in [0,1]; every table-path value has confidence in [0,1]
provided each table's accuracy figure (0.8 when absent) is nonnegative. -/
theorem lab_confidence_unit_interval (eng : ReEngine) (normalized_text : String)
    (modifier : ℚ) (tables : List PTable)
    (hm0 : 0 ≤ modifier) (hm1 : modifier ≤ 1)
    (hacc : ∀ t ∈ tables, 0 ≤ t.accuracy.getD 0.8) :
    (∀ v ∈ extractFromText eng normalized_text modifier,
      0 ≤ v.confidence ∧ v.confidence ≤ 1) ∧
    (∀ v ∈ extractFromTables eng tables,
      0 ≤ v.confidence ∧ v.confidence ≤ 1) := by
  constructor
  · intro v hv
    obtain ⟨-, g, c, p, hconf⟩ := extractFromText_facts hv
    have hb := calculateExtractionConfidence_bounds g c v.test_name p
    rw [hconf]
    constructor
    · exact mul_nonneg (le_trans (by norm_num) hb.1) hm0
    · calc calculateExtractionConfidence g c v.test_name p * modifier ≤ 1 * 1 :=
            mul_le_mul hb.2 hm1 hm0 (by norm_num)
        _ = 1 := by norm_num
  · intro v hv
    obtain ⟨-, t, ht, hconf⟩ := extractFromTables_facts hv
    rw [hconf]
    exact ⟨le_min (by norm_num) (hacc t ht),
      le_trans (min_le_left _ _) (by norm_num)⟩

/-- Witness for C2 (amended): a table at accuracy 0.95 yields the albumin
value with confidence 0.9, which lies in [0,1]. -/
theorem lab_confidence_unit_interval_witness :
    extractFromTables trivEngine [c4Table] =
      [⟨"albumin", 4, "g/dL", 0.9, some false⟩] ∧
    0 ≤ (⟨"albumin", 4, "g/dL", 0.9, some false⟩ : LabValue).confidence ∧
    (⟨"albumin", 4, "g/dL", 0.9, some false⟩ : LabValue).confidence ≤ 1 := by
  have hlist : extractFromTables trivEngine [c4Table] =
      [⟨"albumin", 4, "g/dL", 0.9, some false⟩] := by with_unfolding_all rfl
  have hacc : ∀ t ∈ [c4Table], (0 : ℚ) ≤ t.accuracy.getD 0.8 := by
    intro t ht
    simp only [List.mem_singleton] at ht
    subst ht
    norm_num [c4Table]
  have h := (lab_confidence_unit_interval trivEngine "" 1 [c4Table]
      (by norm_num) (by norm_num) hacc).2
    ⟨"albumin", 4, "g/dL", 0.9, some false⟩
    (by rw [hlist]; exact List.mem_singleton_self _)
  exact ⟨hlist, h⟩

end CareLens
